import Mathlib

set_option maxRecDepth 100000

/-!
Verification of `src/publish_daily_updates.py` (Policy_Regulatory_Updates).

The script flattens a categorized policy snapshot
`{source_type: {source_name: [items]}}` into flat documents, derives a
stable document id from the normalized title and the publication date
(`get_unique_document_id`), and publishes the documents to a Firestore
collection as one batch write.

We shallowly embed the script: strings are Lean `String`s, Python
`dict`s become association lists, `datetime.utcnow()` becomes explicit
`today`/`iso` parameters, the Firestore handle becomes `Option Unit`,
and the destination collection becomes an association list keyed by
document id.  SHA-1 is implemented concretely over byte lists so that
ids can be evaluated on concrete inputs.
-/

/-! ## Python string primitives (ASCII semantics) -/

/-- Characters stripped by Python `str.strip()` (ASCII whitespace). -/
def pyIsSpace (c : Char) : Bool :=
  c = ' ' || c = '\t' || c = '\n' || c = '\r' || c = '\x0b' || c = '\x0c'

/-- Python `str.strip()`: drop leading and trailing whitespace. -/
def pyStrip (s : String) : String :=
  String.mk (((s.data.dropWhile pyIsSpace).reverse.dropWhile pyIsSpace).reverse)

/-- Python `str.lower()` on one character (ASCII range). -/
def pyCharLower (c : Char) : Char :=
  if 'A' ≤ c ∧ c ≤ 'Z' then Char.ofNat (c.toNat + 32) else c

/-- Python `str.lower()` (ASCII range). -/
def pyLower (s : String) : String :=
  String.mk (s.data.map pyCharLower)

/-- Python `str.upper()` on one character (ASCII range). -/
def pyCharUpper (c : Char) : Char :=
  if 'a' ≤ c ∧ c ≤ 'z' then Char.ofNat (c.toNat - 32) else c

/-- Python `str.capitalize()`: uppercase the first character, lowercase the rest. -/
def pyCapitalize (s : String) : String :=
  match s.data with
  | [] => ""
  | c :: rest => String.mk (pyCharUpper c :: rest.map pyCharLower)

/-- Python `s.replace(old_char, "")` for a single character: delete every occurrence. -/
def pyDeleteChar (s : String) (c : Char) : String :=
  String.mk (s.data.filter (fun x => x ≠ c))

/-! ## UTF-8 encoding (Python `str.encode('utf-8')`) -/

/-- UTF-8 encoding of one Unicode code point, as a list of bytes. -/
def utf8EncodeChar (c : Char) : List Nat :=
  let n := c.toNat
  if n < 0x80 then [n]
  else if n < 0x800 then
    [0xC0 ||| (n >>> 6), 0x80 ||| (n &&& 0x3F)]
  else if n < 0x10000 then
    [0xE0 ||| (n >>> 12), 0x80 ||| ((n >>> 6) &&& 0x3F), 0x80 ||| (n &&& 0x3F)]
  else
    [0xF0 ||| (n >>> 18), 0x80 ||| ((n >>> 12) &&& 0x3F),
     0x80 ||| ((n >>> 6) &&& 0x3F), 0x80 ||| (n &&& 0x3F)]

/-- UTF-8 encoding of a string, as a list of bytes. -/
def utf8Encode (s : String) : List Nat :=
  s.data.flatMap utf8EncodeChar

/-! ## SHA-1 (`hashlib.sha1`), over byte lists, 32-bit words as `Nat mod 2^32` -/

/-- Truncate to a 32-bit word. -/
def w32 (n : Nat) : Nat := n % 4294967296

/-- Rotate a 32-bit word left by `s` bits. -/
def rotl (s n : Nat) : Nat := w32 ((n <<< s) ||| (n >>> (32 - s)))

/-- Big-endian 8-byte encoding of a natural number (the length field of SHA-1 padding). -/
def be8 (n : Nat) : List Nat :=
  [(n >>> 56) &&& 255, (n >>> 48) &&& 255, (n >>> 40) &&& 255, (n >>> 32) &&& 255,
   (n >>> 24) &&& 255, (n >>> 16) &&& 255, (n >>> 8) &&& 255, n &&& 255]

/-- SHA-1 message padding: append `0x80`, zero bytes to 56 mod 64, then the bit length. -/
def sha1Pad (msg : List Nat) : List Nat :=
  let z := (119 - msg.length % 64) % 64
  msg ++ [0x80] ++ List.replicate z 0 ++ be8 (msg.length * 8)

/-- Group bytes four at a time into big-endian 32-bit words. -/
def toWords : List Nat → List Nat
  | b0 :: b1 :: b2 :: b3 :: rest =>
    (((b0 * 256 + b1) * 256 + b2) * 256 + b3) :: toWords rest
  | _ => []

/-- Extend the 16 chunk words once: append `rotl 1 (w[n-3] xor w[n-8] xor w[n-14] xor w[n-16])`. -/
def sha1ExtendStep (ws : List Nat) : List Nat :=
  let n := ws.length
  ws ++ [rotl 1 ((ws.getD (n - 3) 0) ^^^ (ws.getD (n - 8) 0) ^^^
                 (ws.getD (n - 14) 0) ^^^ (ws.getD (n - 16) 0))]

/-- Iterate the extension step `k` times (64 times: 16 words become 80). -/
def sha1ExtendGo : Nat → List Nat → List Nat
  | 0, ws => ws
  | k + 1, ws => sha1ExtendGo k (sha1ExtendStep ws)

/-- One SHA-1 round: round index `i`, schedule word `w`, state `(a,b,c,d,e)`. -/
def sha1Round (i w : Nat) : Nat × Nat × Nat × Nat × Nat → Nat × Nat × Nat × Nat × Nat
  | (a, b, c, d, e) =>
    let f :=
      if i < 20 then (b &&& c) ||| ((b ^^^ 0xFFFFFFFF) &&& d)
      else if i < 40 then b ^^^ c ^^^ d
      else if i < 60 then (b &&& c) ||| (b &&& d) ||| (c &&& d)
      else b ^^^ c ^^^ d
    let k :=
      if i < 20 then 0x5A827999
      else if i < 40 then 0x6ED9EBA1
      else if i < 60 then 0x8F1BBCDC
      else 0xCA62C1D6
    let temp := w32 (rotl 5 a + f + e + k + w)
    (temp, a, rotl 30 b, c, d)

/-- Run the 80 rounds over the word schedule. -/
def sha1Rounds : Nat → List Nat → Nat × Nat × Nat × Nat × Nat → Nat × Nat × Nat × Nat × Nat
  | _, [], st => st
  | i, w :: rest, st => sha1Rounds (i + 1) rest (sha1Round i w st)

/-- Process one 64-byte chunk, updating the five hash words. -/
def sha1Chunk (h : Nat × Nat × Nat × Nat × Nat) (chunk : List Nat) :
    Nat × Nat × Nat × Nat × Nat :=
  let ws := sha1ExtendGo 64 (toWords chunk)
  match h, sha1Rounds 0 ws h with
  | (h0, h1, h2, h3, h4), (a, b, c, d, e) =>
    (w32 (h0 + a), w32 (h1 + b), w32 (h2 + c), w32 (h3 + d), w32 (h4 + e))

/-- Fold over the 64-byte chunks of the padded message (fuel-bounded for structural recursion). -/
def sha1ChunksGo : Nat → Nat × Nat × Nat × Nat × Nat → List Nat → Nat × Nat × Nat × Nat × Nat
  | 0, st, _ => st
  | _, st, [] => st
  | fuel + 1, st, bytes => sha1ChunksGo fuel (sha1Chunk st (bytes.take 64)) (bytes.drop 64)

/-- SHA-1 of a byte list: the five 32-bit hash words. -/
def sha1Bytes (msg : List Nat) : Nat × Nat × Nat × Nat × Nat :=
  let padded := sha1Pad msg
  sha1ChunksGo padded.length (0x67452301, 0xEFCDAB89, 0x98BADCFE, 0x10325476, 0xC3D2E1F0) padded

/-- One lowercase hexadecimal digit. -/
def hexDigit (n : Nat) : Char :=
  if n < 10 then Char.ofNat (48 + n) else Char.ofNat (87 + n)

/-- Eight lowercase hexadecimal digits of a 32-bit word, big-endian. -/
def hexWord (n : Nat) : List Char :=
  [hexDigit ((n >>> 28) &&& 15), hexDigit ((n >>> 24) &&& 15),
   hexDigit ((n >>> 20) &&& 15), hexDigit ((n >>> 16) &&& 15),
   hexDigit ((n >>> 12) &&& 15), hexDigit ((n >>> 8) &&& 15),
   hexDigit ((n >>> 4) &&& 15), hexDigit (n &&& 15)]

/-- `hashlib.sha1(bytes).hexdigest()`: 40 lowercase hex characters. -/
def sha1Hexdigest (msg : List Nat) : String :=
  match sha1Bytes msg with
  | (h0, h1, h2, h3, h4) =>
    String.mk (hexWord h0 ++ hexWord h1 ++ hexWord h2 ++ hexWord h3 ++ hexWord h4)

-- SHA-1 test vectors (FIPS 180-1): validate the embedding of `hashlib.sha1`.
example : sha1Hexdigest (utf8Encode "abc") = "a9993e364706816aba3e25717850c26c9cd0d89d" := by
  decide

example : sha1Hexdigest (utf8Encode "") = "da39a3ee5e6b4b0d3255bfef95601890afd80709" := by
  decide

/-! ## `get_unique_document_id` (src/publish_daily_updates.py lines 45-54) -/

/-- Embedding of `get_unique_document_id(title, date_str)`:
`key_string = f"{title.strip().lower()}-{date_str}"`,
`hash_value = hashlib.sha1(key_string.encode('utf-8')).hexdigest()`,
returns `f"{date_str}-{hash_value[:10]}"`. -/
def get_unique_document_id (title date_str : String) : String :=
  let key_string := pyLower (pyStrip title) ++ "-" ++ date_str
  let hash_value := sha1Hexdigest (utf8Encode key_string)
  date_str ++ "-" ++ hash_value.take 10

/-! ## Data model of `transform_and_publish_policies` (lines 56-106) -/

/-- An input item of the snapshot: a Python dict read only through
`item.get(key, default)`, so each consulted key is an optional field. -/
structure Item where
  title : Option String
  url : Option String
  summary : Option String
  source : Option String
  category : Option String
  date : Option String
deriving DecidableEq

/-- A flat Firestore document as assembled at lines 73-88. -/
structure Document where
  title : String
  url : String
  summary : String
  source : String
  category : String
  source_type : String
  publication_date : String
  published_at : String
deriving DecidableEq

/-- The categorized snapshot `{source_type: {source_name: [items]}}`:
Python dicts in iteration (insertion) order become association lists. -/
abbrev Snapshot := List (String × List (String × List Item))

/-- The three recognized grouping keys of line 68. -/
def groupKeys : List String := ["central", "states", "uts"]

/-- Line 81: `source_type.capitalize().replace('s', '')`. -/
def sourceTypeLabel (st : String) : String :=
  pyDeleteChar (pyCapitalize st) 's'

/-- The document built for one item (lines 73-88).  `today` stands for
`datetime.utcnow().strftime("%Y-%m-%d")` and `iso` for
`datetime.utcnow().isoformat()` at run time. -/
def mkDocument (source_type source_name today iso : String) (item : Item) : Document where
  title := item.title.getD "Untitled Policy"
  url := item.url.getD "#"
  summary := item.summary.getD "No summary available."
  source := item.source.getD source_name
  category := item.category.getD "General"
  source_type := sourceTypeLabel source_type
  publication_date := item.date.getD today
  published_at := iso

/-- The flattened `policy_list` of lines 64-89: iterate the snapshot's
top-level entries, keep only the three recognized keys, and map every
item of every source to its document. -/
def policyList (snapshot : Snapshot) (today iso : String) : List Document :=
  snapshot.flatMap fun stEntry =>
    if stEntry.1 ∈ groupKeys then
      stEntry.2.flatMap fun snEntry =>
        snEntry.2.map (mkDocument stEntry.1 snEntry.1 today iso)
    else []

/-- The document id used for the upsert at line 99. -/
def docId (d : Document) : String :=
  get_unique_document_id d.title d.publication_date

/-- One operation issued against the batch-write sink:
`batch.set(doc_ref, policy)` (line 103) or `batch.commit()` (line 105). -/
inductive SinkOp where
  | set : String → Document → SinkOp
  | commit : SinkOp
deriving DecidableEq

/-- Embedding of `transform_and_publish_policies(policies_snapshot)`.
`db` is the module-level Firestore client (`None` when startup
initialization failed, line 38).  The result is the list of sink
operations issued and the returned count.  When `db` is falsy the
function returns 0 having issued no operation (lines 60-62); otherwise
it stages one `set` per document and ends with a single `commit`
(lines 94-106), returning `len(policy_list)`. -/
def transform_and_publish_policies (db : Option Unit) (snapshot : Snapshot)
    (today iso : String) : List SinkOp × Nat :=
  match db with
  | none => ([], 0)
  | some _ =>
    let pl := policyList snapshot today iso
    (pl.map (fun d => SinkOp.set (docId d) d) ++ [SinkOp.commit], pl.length)

/-- The hard-coded mock snapshot of `run_daily_policy_scraper` (lines 124-144). -/
def mock_data_from_scrapers : Snapshot :=
  [("central",
    [("CERC",
      [{ date := some "2025-10-27",
         title := some "New Tariff Policy for Solar Power Procurement Guidelines",
         url := some "https://example.com/cerc-tariff", source := some "CERC",
         category := some "Regulation",
         summary := some "Details of Transmission Access Charge Waiver on Open Access..." },
       { date := some "2025-10-26",
         title := some "CERC Order on Cross-Subsidy Surcharge (CSS) Calculation",
         url := some "https://example.com/cerc-css", source := some "CERC",
         category := some "Regulation",
         summary := some "New formula defined for calculating cross-subsidy surcharge for open access transactions." }]),
     ("MNRE",
      [{ date := some "2025-10-26",
         title := some "Guidelines for Green Hydrogen Mission Subsidy",
         url := some "https://example.com/mnre-hydrogen", source := some "MNRE",
         category := some "Policy",
         summary := some "Detailed operational guidelines for availing subsidies under the National Green Hydrogen Mission..." }])]),
   ("states",
    [("Gujarat",
      [{ date := some "2025-10-25",
         title := some "Gujarat EV Charging Infrastructure Policy V2.0",
         url := some "https://example.com/gujarat-ev", source := some "Gujarat",
         category := some "Policy",
         summary := some "New rules simplify land acquisition for solar projects and provide infrastructure subsidies." }])]),
   ("uts",
    [("Delhi",
      [{ date := some "2025-10-24",
         title := some "Delhi Energy Efficiency Building Codes Update",
         url := some "https://example.com/delhi-codes", source := some "Delhi",
         category := some "Regulation",
         summary := some "Mandatory updates to building codes to improve energy efficiency in large commercial complexes." }])])]

/-- Embedding of `run_daily_policy_scraper()` (lines 110-152): when the
client is unavailable it returns immediately without any publish
attempt (`none`, lines 115-117); otherwise it publishes the mock
snapshot and the outcome is the publish result (`some`). -/
def run_daily_policy_scraper (db : Option Unit) (today iso : String) :
    Option (List SinkOp × Nat) :=
  match db with
  | none => none
  | some _ => some (transform_and_publish_policies db mock_data_from_scrapers today iso)

/-! ## Destination model: the Firestore collection keyed by document id -/

/-- The destination collection: documents keyed by id (spec section 3,
"a set of documents keyed by id"), in insertion order. -/
abbrev Dest := List (String × Document)

/-- Upsert one document: full replace if the id exists, else append
(`.set()` semantics, line 102). -/
def upsertDoc : Dest → String → Document → Dest
  | [], k, v => [(k, v)]
  | (k', v') :: rest, k, v =>
    if k' = k then (k, v) :: rest else (k', v') :: upsertDoc rest k v

/-- The ids present in the destination. -/
def keysOf (d : Dest) : List String := d.map Prod.fst

/-- Apply a list of keyed writes in order. -/
def applyPairs (dest : Dest) (ps : List (String × Document)) : Dest :=
  ps.foldl (fun d p => upsertDoc d p.1 p.2) dest

/-- Apply a batch of documents, each keyed by its computed id (lines 97-103). -/
def applyDocs (dest : Dest) (docs : List Document) : Dest :=
  applyPairs dest (docs.map fun d => (docId d, d))

/-- The destination after one successful run of
`transform_and_publish_policies` on `snapshot`. -/
def publishTo (dest : Dest) (snapshot : Snapshot) (today iso : String) : Dest :=
  applyDocs dest (policyList snapshot today iso)

/-- Modelled from the spec: the semantics of the Firestore batched
write consumed through `db.batch()` / `batch.set` / `batch.commit` —
external code not in this repository.  Staged `set`s accumulate in a
pending buffer and mutate nothing; `commit` applies the whole pending
buffer to the destination when the transport succeeds (`ok = true`)
and leaves the destination unchanged when the transport fails before
acknowledgment (`ok = false`), per spec section 4.6: "all documents in
the batch become visible together, or none do". -/
def runOpsGo (ok : Bool) : Dest → List (String × Document) → List SinkOp → Dest
  | dest, _, [] => dest
  | dest, pending, SinkOp.set k v :: rest => runOpsGo ok dest (pending ++ [(k, v)]) rest
  | dest, pending, SinkOp.commit :: rest =>
    runOpsGo ok (if ok then applyPairs dest pending else dest) [] rest

/-- Run a trace of sink operations against a destination. -/
def runOps (ok : Bool) (dest : Dest) (ops : List SinkOp) : Dest :=
  runOpsGo ok dest [] ops

/-! ## Helper lemmas -/

/-- A date string in canonical ISO form `YYYY-MM-DD` (spec sections 3 and 6). -/
def isIsoDateFormat (s : String) : Bool :=
  s.length == 10 &&
  (s.data.getD 0 ' ').isDigit && (s.data.getD 1 ' ').isDigit &&
  (s.data.getD 2 ' ').isDigit && (s.data.getD 3 ' ').isDigit &&
  (s.data.getD 4 ' ') == '-' &&
  (s.data.getD 5 ' ').isDigit && (s.data.getD 6 ' ').isDigit &&
  (s.data.getD 7 ' ') == '-' &&
  (s.data.getD 8 ' ').isDigit && (s.data.getD 9 ' ').isDigit

theorem isoDate_data_length {s : String} (h : isIsoDateFormat s = true) :
    s.data.length = 10 := by
  have h' : s.length = 10 := by
    simp only [isIsoDateFormat, Bool.and_eq_true, beq_iff_eq] at h
    exact h.1.1.1.1.1.1.1.1.1.1
  cases s with
  | mk data => exact h'

theorem lexLt_append {α : Type} {r : α → α → Prop} {l₁ l₂ : List α} (a b : List α)
    (hlen : l₁.length = l₂.length) (h : List.Lex r l₁ l₂) :
    List.Lex r (l₁ ++ a) (l₂ ++ b) := by
  induction h with
  | nil => simp at hlen
  | cons h ih => exact List.Lex.cons (ih (by simpa using hlen))
  | rel h => exact List.Lex.rel h

theorem toList_append (s t : String) : (s ++ t).toList = s.toList ++ t.toList := by
  simp [String.toList]

theorem get_unique_document_id_lt {t1 t2 d1 d2 : String}
    (hlen : d1.toList.length = d2.toList.length) (hlt : d1 < d2) :
    get_unique_document_id t1 d1 < get_unique_document_id t2 d2 := by
  rw [String.lt_iff_toList_lt] at hlt ⊢
  simp only [get_unique_document_id, toList_append, List.append_assoc]
  exact lexLt_append _ _ hlen hlt

theorem get_unique_document_id_ne {t1 t2 d1 d2 : String}
    (hlen : d1.toList.length = d2.toList.length) (hne : d1 ≠ d2) :
    get_unique_document_id t1 d1 ≠ get_unique_document_id t2 d2 := by
  intro heq
  apply hne
  have hdata : (get_unique_document_id t1 d1).toList = (get_unique_document_id t2 d2).toList :=
    congrArg String.toList heq
  simp only [get_unique_document_id, toList_append, List.append_assoc] at hdata
  exact String.toList_inj.mp (List.append_inj_left hdata hlen)

theorem get_unique_document_id_congr {t1 t2 : String} (d : String)
    (hnorm : pyLower (pyStrip t1) = pyLower (pyStrip t2)) :
    get_unique_document_id t1 d = get_unique_document_id t2 d := by
  simp only [get_unique_document_id, hnorm]

theorem keysOf_cons (p : String × Document) (d : Dest) :
    keysOf (p :: d) = p.1 :: keysOf d := rfl

theorem keysOf_upsertDoc (d : Dest) (k : String) (v : Document) :
    keysOf (upsertDoc d k v) = if k ∈ keysOf d then keysOf d else keysOf d ++ [k] := by
  induction d with
  | nil => simp [upsertDoc, keysOf]
  | cons p rest ih =>
    obtain ⟨k', v'⟩ := p
    simp only [upsertDoc]
    by_cases hk : k' = k
    · subst hk
      rw [if_pos rfl, keysOf_cons, keysOf_cons,
        if_pos (show k' ∈ k' :: keysOf rest from List.mem_cons_self _ _)]
    · have hne : k ≠ k' := fun h => hk h.symm
      simp only [if_neg hk, keysOf_cons, ih]
      by_cases hmem : k ∈ keysOf rest
      · rw [if_pos hmem, if_pos (show k ∈ k' :: keysOf rest from List.mem_cons_of_mem _ hmem)]
      · have hnotc : k ∉ k' :: keysOf rest := by
          intro h
          rcases List.mem_cons.mp h with h | h
          · exact hne h
          · exact hmem h
        rw [if_neg hmem, if_neg hnotc, List.cons_append]

theorem mem_keysOf_upsertDoc (d : Dest) (k : String) (v : Document) :
    k ∈ keysOf (upsertDoc d k v) := by
  rw [keysOf_upsertDoc]
  by_cases h : k ∈ keysOf d
  · simp [h]
  · simp [h]

theorem keysOf_upsertDoc_mono {a : String} {d : Dest} (k : String) (v : Document)
    (h : a ∈ keysOf d) : a ∈ keysOf (upsertDoc d k v) := by
  rw [keysOf_upsertDoc]
  by_cases hm : k ∈ keysOf d
  · simpa [hm] using h
  · simp [hm, List.mem_append, Or.inl h]

theorem keysOf_applyPairs_mono {a : String} {d : Dest} (ps : List (String × Document))
    (h : a ∈ keysOf d) : a ∈ keysOf (applyPairs d ps) := by
  induction ps generalizing d with
  | nil => exact h
  | cons p rest ih => exact ih (keysOf_upsertDoc_mono p.1 p.2 h)

theorem fst_mem_keysOf_applyPairs {k : String} {ps : List (String × Document)} (d : Dest)
    (h : k ∈ ps.map Prod.fst) : k ∈ keysOf (applyPairs d ps) := by
  induction ps generalizing d with
  | nil => simp at h
  | cons p rest ih =>
    simp only [List.map_cons, List.mem_cons] at h
    rcases h with h | h
    · subst h
      exact keysOf_applyPairs_mono rest (mem_keysOf_upsertDoc d p.1 p.2)
    · exact ih _ h

theorem keysOf_upsertDoc_of_mem {k : String} {d : Dest} (v : Document)
    (h : k ∈ keysOf d) : keysOf (upsertDoc d k v) = keysOf d := by
  rw [keysOf_upsertDoc, if_pos h]

theorem keysOf_applyPairs_of_mem {ps : List (String × Document)} {d : Dest}
    (h : ∀ p ∈ ps, p.1 ∈ keysOf d) : keysOf (applyPairs d ps) = keysOf d := by
  induction ps generalizing d with
  | nil => rfl
  | cons p rest ih =>
    have h1 : keysOf (upsertDoc d p.1 p.2) = keysOf d :=
      keysOf_upsertDoc_of_mem p.2 (h p (by simp))
    have h2 : ∀ q ∈ rest, q.1 ∈ keysOf (upsertDoc d p.1 p.2) := by
      intro q hq
      rw [h1]
      exact h q (by simp [hq])
    calc keysOf (applyPairs (upsertDoc d p.1 p.2) rest)
        = keysOf (upsertDoc d p.1 p.2) := ih h2
      _ = keysOf d := h1

theorem docId_mkDocument (st sn today iso : String) (item : Item) :
    docId (mkDocument st sn today iso item) =
      get_unique_document_id (item.title.getD "Untitled Policy") (item.date.getD today) := rfl

theorem policyList_cons (e : String × List (String × List Item)) (rest : Snapshot)
    (today iso : String) :
    policyList (e :: rest) today iso =
      (if e.1 ∈ groupKeys then
        e.2.flatMap fun snEntry => snEntry.2.map (mkDocument e.1 snEntry.1 today iso)
       else []) ++ policyList rest today iso := by
  simp [policyList]

theorem policyList_map_docId (s : Snapshot) (today iso1 iso2 : String) :
    (policyList s today iso1).map docId = (policyList s today iso2).map docId := by
  induction s with
  | nil => rfl
  | cons e rest ih =>
    simp only [policyList_cons, List.map_append, ih]
    by_cases h : e.1 ∈ groupKeys
    · simp only [h, if_true, List.map_flatMap, List.map_map, Function.comp_def,
        docId_mkDocument]
    · simp [h]

theorem runOpsGo_append_sets (ok : Bool) (dest : Dest) (docs : List Document)
    (pending : List (String × Document)) (rest : List SinkOp) :
    runOpsGo ok dest pending (docs.map (fun d => SinkOp.set (docId d) d) ++ rest) =
      runOpsGo ok dest (pending ++ docs.map (fun d => (docId d, d))) rest := by
  induction docs generalizing pending with
  | nil => simp
  | cons d ds ih =>
    simp only [List.map_cons, List.cons_append, runOpsGo, List.append_eq]
    rw [ih]
    simp [List.append_assoc]

theorem runOps_publish (ok : Bool) (dest : Dest) (snapshot : Snapshot) (today iso : String) :
    runOps ok dest (transform_and_publish_policies (some ()) snapshot today iso).1 =
      if ok then publishTo dest snapshot today iso else dest := by
  simp only [transform_and_publish_policies, runOps]
  rw [runOpsGo_append_sets]
  simp only [List.nil_append, runOpsGo]
  by_cases h : ok <;> simp [h, publishTo, applyDocs]

theorem policyList_singleton {st : String} (sn : String) (item : Item) (today iso : String)
    (hst : st ∈ groupKeys) :
    policyList [(st, [(sn, [item])])] today iso = [mkDocument st sn today iso item] := by
  simp [policyList, hst]

/-! ## Claim theorems -/

/-- C1: for every title and date string, `get_unique_document_id` returns
`"{date_str}-{p}"` where `p` is the first 10 hex characters of the SHA-1
digest of the UTF-8 encoding of the trimmed, lowercased title concatenated
with the date string by the separator `"-"`; and it is deterministic: equal
(normalized title, publication date) pairs yield equal ids. -/
theorem C1_id_algorithm_and_determinism :
    (∀ title date_str : String,
      get_unique_document_id title date_str =
        date_str ++ "-" ++
          (sha1Hexdigest (utf8Encode (pyLower (pyStrip title) ++ "-" ++ date_str))).take 10) ∧
    (∀ t1 t2 d1 d2 : String,
      pyLower (pyStrip t1) = pyLower (pyStrip t2) → d1 = d2 →
      get_unique_document_id t1 d1 = get_unique_document_id t2 d2) := by
  refine ⟨fun _ _ => rfl, fun t1 t2 d1 d2 h hd => ?_⟩
  subst hd
  exact get_unique_document_id_congr _ h

/-- Witness for C1 at concrete inputs. -/
theorem C1_witness :
    get_unique_document_id "Solar Policy" "2025-10-14" =
      "2025-10-14" ++ "-" ++
        (sha1Hexdigest (utf8Encode (pyLower (pyStrip "Solar Policy") ++ "-" ++ "2025-10-14"))).take 10 ∧
    get_unique_document_id " Solar Policy" "2025-10-14" =
      get_unique_document_id "solar policy" "2025-10-14" :=
  ⟨C1_id_algorithm_and_determinism.1 "Solar Policy" "2025-10-14",
   C1_id_algorithm_and_determinism.2 " Solar Policy" "solar policy" "2025-10-14" "2025-10-14"
     (by decide) rfl⟩

/-- C3 counterexample: the titles `"a b"` and `"a  b"` differ only by
internal whitespace and share the date `"2025-10-14"`, yet their ids
differ — `str.strip()` removes only surrounding whitespace, so internal
whitespace reaches the hash. -/
theorem C3_counterexample :
    get_unique_document_id "a b" "2025-10-14" ≠ get_unique_document_id "a  b" "2025-10-14" := by
  decide

/-- C3 (amended): titles whose trimmed, lowercased forms are equal — in
particular titles differing only by surrounding (not internal) whitespace
or by letter case — yield the same identifier for every common date. -/
theorem C3_amended_normalized_titles_same_id (t1 t2 d : String)
    (h : pyLower (pyStrip t1) = pyLower (pyStrip t2)) :
    get_unique_document_id t1 d = get_unique_document_id t2 d :=
  get_unique_document_id_congr d h

/-- Witness for the amended C3 at concrete inputs. -/
theorem C3_witness :
    pyLower (pyStrip "  Solar POLICY ") = pyLower (pyStrip "solar policy") ∧
    get_unique_document_id "  Solar POLICY " "2025-10-14" =
      get_unique_document_id "solar policy" "2025-10-14" :=
  ⟨by decide, C3_amended_normalized_titles_same_id _ _ "2025-10-14" (by decide)⟩

/-- An item with none of the consulted keys present. -/
def emptyItem : Item :=
  { title := none, url := none, summary := none, source := none,
    category := none, date := none }

theorem source_type_mkDocument (st sn today iso : String) (item : Item) :
    (mkDocument st sn today iso item).source_type = sourceTypeLabel st := rfl

/-- C2 counterexample: a snapshot item grouped under `'uts'` is published
with `source_type = "Ut"` (`'uts'.capitalize().replace('s','')`), which is
none of `"Central"`, `"State"`, `"UnionTerritory"`. -/
theorem C2_counterexample :
    (policyList [("uts", [("Delhi", [emptyItem])])] "2025-10-24" "T").map
        Document.source_type = ["Ut"] ∧
    "Ut" ∉ ["Central", "State", "UnionTerritory"] := by
  constructor
  · decide
  · decide

/-- C2 (amended): every document published by
`transform_and_publish_policies` has `source_type` among `"Central"`,
`"State"`, `"Ut"` — the images of the grouping keys `'central'`,
`'states'`, `'uts'` under `capitalize` followed by deleting every
lowercase `'s'`. -/
theorem C2_amended_source_type_labels (snapshot : Snapshot) (today iso : String)
    (doc : Document) (hdoc : doc ∈ policyList snapshot today iso) :
    doc.source_type ∈ ["Central", "State", "Ut"] := by
  induction snapshot with
  | nil => simp [policyList] at hdoc
  | cons e rest ih =>
    rw [policyList_cons] at hdoc
    rcases List.mem_append.mp hdoc with h | h
    · by_cases hst : e.1 ∈ groupKeys
      · rw [if_pos hst] at h
        obtain ⟨snE, _, hmem⟩ := List.mem_flatMap.mp h
        obtain ⟨item, _, rfl⟩ := List.mem_map.mp hmem
        have hcases : e.1 = "central" ∨ e.1 = "states" ∨ e.1 = "uts" := by
          simpa [groupKeys] using hst
        rcases hcases with h1 | h1 | h1 <;> rw [h1, source_type_mkDocument] <;> decide
      · rw [if_neg hst] at h
        simp at h
    · exact ih h

/-- Witness for the amended C2 at a concrete snapshot. -/
theorem C2_witness :
    mkDocument "uts" "Delhi" "2025-10-24" "T" emptyItem ∈
      policyList [("uts", [("Delhi", [emptyItem])])] "2025-10-24" "T" ∧
    (mkDocument "uts" "Delhi" "2025-10-24" "T" emptyItem).source_type ∈
      ["Central", "State", "Ut"] :=
  ⟨by decide,
   C2_amended_source_type_labels [("uts", [("Delhi", [emptyItem])])] "2025-10-24" "T"
     (mkDocument "uts" "Delhi" "2025-10-24" "T" emptyItem) (by decide)⟩

/-- C4: publishing is idempotent — with the destination modelled as a
map keyed by document id, publishing the same unchanged snapshot twice
(same run date; the `published_at` timestamps may differ) leaves the
destination with the same set of ids as publishing it once: deterministic
ids make the second batch pure replacements. -/
theorem C4_republish_idempotent (dest : Dest) (snapshot : Snapshot)
    (today iso1 iso2 : String) :
    keysOf (publishTo (publishTo dest snapshot today iso1) snapshot today iso2) =
      keysOf (publishTo dest snapshot today iso1) := by
  unfold publishTo applyDocs
  apply keysOf_applyPairs_of_mem
  intro p hp
  obtain ⟨doc, hdoc, rfl⟩ := List.mem_map.mp hp
  have h1 : docId doc ∈ (policyList snapshot today iso1).map docId := by
    rw [policyList_map_docId snapshot today iso1 iso2]
    exact List.mem_map_of_mem _ hdoc
  exact fst_mem_keysOf_applyPairs _ (by simpa [List.map_map, Function.comp_def] using h1)

/-- C5: when startup initialization failed (`db` is `None`),
`transform_and_publish_policies` issues no sink operation and returns 0,
and `run_daily_policy_scraper` returns without attempting any publish. -/
theorem C5_db_none_aborts :
    (∀ (snapshot : Snapshot) (today iso : String),
      transform_and_publish_policies none snapshot today iso = ([], 0)) ∧
    (∀ today iso : String, run_daily_policy_scraper none today iso = none) :=
  ⟨fun _ _ _ => rfl, fun _ _ => rfl⟩

/-- C6: each missing optional field of an item is replaced by its fixed
default in the published document — summary `'No summary available.'`,
url `'#'`, category `'General'`, title `'Untitled Policy'`, and source
the organization-name key under which the item appears. -/
theorem C6_missing_field_defaults (st sn today iso : String) (item : Item)
    (hst : st ∈ groupKeys) :
    policyList [(st, [(sn, [item])])] today iso = [mkDocument st sn today iso item] ∧
    (item.summary = none → (mkDocument st sn today iso item).summary = "No summary available.") ∧
    (item.url = none → (mkDocument st sn today iso item).url = "#") ∧
    (item.category = none → (mkDocument st sn today iso item).category = "General") ∧
    (item.title = none → (mkDocument st sn today iso item).title = "Untitled Policy") ∧
    (item.source = none → (mkDocument st sn today iso item).source = sn) := by
  refine ⟨policyList_singleton sn item today iso hst, ?_, ?_, ?_, ?_, ?_⟩ <;>
    intro h <;> simp [mkDocument, h]

/-- Witness for C6 at a concrete all-defaults item. -/
theorem C6_witness :
    policyList [("central", [("CERC", [emptyItem])])] "2025-10-27" "T" =
      [mkDocument "central" "CERC" "2025-10-27" "T" emptyItem] ∧
    (mkDocument "central" "CERC" "2025-10-27" "T" emptyItem).summary = "No summary available." ∧
    (mkDocument "central" "CERC" "2025-10-27" "T" emptyItem).url = "#" ∧
    (mkDocument "central" "CERC" "2025-10-27" "T" emptyItem).category = "General" ∧
    (mkDocument "central" "CERC" "2025-10-27" "T" emptyItem).title = "Untitled Policy" ∧
    (mkDocument "central" "CERC" "2025-10-27" "T" emptyItem).source = "CERC" := by
  have h := C6_missing_field_defaults "central" "CERC" "2025-10-27" "T" emptyItem (by decide)
  exact ⟨h.1, h.2.1 rfl, h.2.2.1 rfl, h.2.2.2.1 rfl, h.2.2.2.2.1 rfl, h.2.2.2.2.2 rfl⟩

/-- C7: identifiers sort lexicographically by day — for date strings in
canonical ISO `YYYY-MM-DD` form with `d1 < d2` as strings, every id
generated for `d1` is lexicographically smaller than every id generated
for `d2`, because the equal-length date prefix decides the comparison. -/
theorem C7_ids_lex_sorted_by_day (t1 t2 d1 d2 : String)
    (h1 : isIsoDateFormat d1 = true) (h2 : isIsoDateFormat d2 = true)
    (hlt : d1 < d2) :
    get_unique_document_id t1 d1 < get_unique_document_id t2 d2 :=
  get_unique_document_id_lt
    (by
      show d1.data.length = d2.data.length
      rw [isoDate_data_length h1, isoDate_data_length h2])
    hlt

/-- Witness for C7 at concrete dates. -/
theorem C7_witness :
    isIsoDateFormat "2025-10-14" = true ∧ isIsoDateFormat "2025-10-15" = true ∧
    ("2025-10-14" : String) < "2025-10-15" ∧
    get_unique_document_id "zebra" "2025-10-14" < get_unique_document_id "alpha" "2025-10-15" :=
  ⟨by decide, by decide, String.lt_iff_toList_lt.mpr (by decide),
   C7_ids_lex_sorted_by_day "zebra" "alpha" "2025-10-14" "2025-10-15"
     (by decide) (by decide) (String.lt_iff_toList_lt.mpr (by decide))⟩

/-- C8: the publish is one atomic batch — `transform_and_publish_policies`
stages every document with `batch.set` and issues a single `batch.commit`;
under the modelled batched-write semantics, a transport failure before
acknowledgment leaves the destination unchanged, and a successful commit
makes exactly the whole batch visible. -/
theorem C8_batch_commit_atomic (dest : Dest) (snapshot : Snapshot) (today iso : String) :
    runOps false dest (transform_and_publish_policies (some ()) snapshot today iso).1 = dest ∧
    runOps true dest (transform_and_publish_policies (some ()) snapshot today iso).1 =
      publishTo dest snapshot today iso := by
  constructor
  · simpa using runOps_publish false dest snapshot today iso
  · simpa using runOps_publish true dest snapshot today iso

/-- C9: an item with no `'date'` key is not dropped — it is published with
`publication_date` equal to the run-time current UTC date, and runs on
different (ISO-form) days assign it different document ids. -/
theorem C9_dateless_item_uses_run_date (st sn today1 today2 iso1 iso2 : String) (item : Item)
    (hdate : item.date = none) (hst : st ∈ groupKeys)
    (h1 : isIsoDateFormat today1 = true) (h2 : isIsoDateFormat today2 = true)
    (hne : today1 ≠ today2) :
    policyList [(st, [(sn, [item])])] today1 iso1 = [mkDocument st sn today1 iso1 item] ∧
    (mkDocument st sn today1 iso1 item).publication_date = today1 ∧
    docId (mkDocument st sn today1 iso1 item) ≠ docId (mkDocument st sn today2 iso2 item) := by
  refine ⟨policyList_singleton sn item today1 iso1 hst, ?_, ?_⟩
  · simp [mkDocument, hdate]
  · rw [docId_mkDocument, docId_mkDocument, hdate]
    simp only [Option.getD_none]
    exact get_unique_document_id_ne
      (by
        show today1.data.length = today2.data.length
        rw [isoDate_data_length h1, isoDate_data_length h2])
      hne

/-- Witness for C9 at a concrete date-less item and two concrete run days. -/
theorem C9_witness :
    policyList [("central", [("CERC", [emptyItem])])] "2025-10-14" "T1" =
      [mkDocument "central" "CERC" "2025-10-14" "T1" emptyItem] ∧
    (mkDocument "central" "CERC" "2025-10-14" "T1" emptyItem).publication_date = "2025-10-14" ∧
    docId (mkDocument "central" "CERC" "2025-10-14" "T1" emptyItem) ≠
      docId (mkDocument "central" "CERC" "2025-10-15" "T2" emptyItem) :=
  C9_dateless_item_uses_run_date "central" "CERC" "2025-10-14" "2025-10-15" "T1" "T2"
    emptyItem rfl (by decide) (by decide) (by decide) (by decide)

/-- C10: items grouped under a top-level key other than `'central'`,
`'states'`, `'uts'` are silently excluded — they add nothing to the
assembled document list, the issued sink operations, or the returned
count. -/
theorem C10_unknown_keys_excluded (st : String) (sources : List (String × List Item))
    (snapshot : Snapshot) (today iso : String) (db : Option Unit)
    (hst : st ∉ groupKeys) :
    policyList ((st, sources) :: snapshot) today iso = policyList snapshot today iso ∧
    transform_and_publish_policies db ((st, sources) :: snapshot) today iso =
      transform_and_publish_policies db snapshot today iso := by
  have hp : policyList ((st, sources) :: snapshot) today iso = policyList snapshot today iso := by
    rw [policyList_cons]
    simp [hst]
  refine ⟨hp, ?_⟩
  cases db with
  | none => rfl
  | some u => simp [transform_and_publish_policies, hp]

/-- Witness for C10 at a concrete unrecognized key. -/
theorem C10_witness :
    policyList [("misc", [("X", [emptyItem])]), ("central", [("CERC", [emptyItem])])]
        "2025-10-14" "T" =
      policyList [("central", [("CERC", [emptyItem])])] "2025-10-14" "T" ∧
    transform_and_publish_policies (some ())
        [("misc", [("X", [emptyItem])]), ("central", [("CERC", [emptyItem])])] "2025-10-14" "T" =
      transform_and_publish_policies (some ())
        [("central", [("CERC", [emptyItem])])] "2025-10-14" "T" :=
  C10_unknown_keys_excluded "misc" [("X", [emptyItem])]
    [("central", [("CERC", [emptyItem])])] "2025-10-14" "T" (some ()) (by decide)
